import Mathlib

/-!
Verification of the Google Ads MCP server core: the token resolution and
caching logic of `ads_mcp/oauth_client.py` and the GAQL preprocessing,
value formatting and result flattening pipeline of `ads_mcp/tools/api.py`.

Python strings are modelled as Lean `String`, Python `dict`s as
association lists, Python `None`-or-value as `Option`, and Python
exceptions as `Except PyErr`.  External collaborators (the filesystem,
the YAML parser, `requests.post`, the Google Ads SDK) are modelled as
oracle parameters describing their outcome for the call at hand.
-/

namespace AdsMcp

/-- A Python exception value (only its message matters to the model). -/
structure PyErr where
  msg : String
deriving Repr, DecidableEq

/-- Python `sub in s` (substring containment). -/
def py_contains (s sub : String) : Bool :=
  decide (sub.data <:+: s.data)

/-- Python `s.endswith(suffixStr)`. -/
def py_endswith (s suffixStr : String) : Bool :=
  decide (suffixStr.data <:+ s.data)

/-- Python truthiness of an optional string: `None` and `""` are falsy. -/
def py_truthy (o : Option String) : Bool :=
  match o with
  | none => false
  | some s => !(s == "")

/-- Python `a or b` on optional strings: returns `a` unless it is falsy. -/
def py_or (a b : Option String) : Option String :=
  if py_truthy a then a else b

/-- `ads_mcp/tools/api.py`, `preprocess_gaql` (lines 159-165): appends the
`omit_unselected_resource_names=true` directive to a GAQL query unless it is
already present; if the query already has a `PARAMETERS` clause with
`include_drafts`, the directive is appended inline instead of opening a new
`PARAMETERS` clause. -/
def preprocess_gaql (query : String) : String :=
  if !(py_contains query "omit_unselected_resource_names") then
    if py_contains query "PARAMETERS" && py_contains query "include_drafts" then
      query ++ " omit_unselected_resource_names=true"
    else
      query ++ " PARAMETERS omit_unselected_resource_names=true"
  else
    query

lemma py_contains_append_right {t sub : String} (s : String)
    (h : py_contains t sub = true) : py_contains (s ++ t) sub = true := by
  simp only [py_contains, decide_eq_true_eq, String.data_append] at h ⊢
  exact h.trans (List.suffix_append s.data t.data).isInfix

lemma py_endswith_append {t u : String} (s : String)
    (h : py_endswith t u = true) : py_endswith (s ++ t) u = true := by
  simp only [py_endswith, decide_eq_true_eq, String.data_append] at h ⊢
  exact h.trans (List.suffix_append s.data t.data)

/-- C4: for a query containing neither `omit_unselected_resource_names` nor
`include_drafts`, `preprocess_gaql` returns the query with
`" PARAMETERS omit_unselected_resource_names=true"` appended, so the result
ends with `"PARAMETERS omit_unselected_resource_names=true"`. -/
theorem c4_preprocess_appends_parameters_clause (query : String)
    (hmarker : py_contains query "omit_unselected_resource_names" = false)
    (hdrafts : py_contains query "include_drafts" = false) :
    preprocess_gaql query = query ++ " PARAMETERS omit_unselected_resource_names=true" ∧
    py_endswith (preprocess_gaql query)
      "PARAMETERS omit_unselected_resource_names=true" = true := by
  have hres : preprocess_gaql query =
      query ++ " PARAMETERS omit_unselected_resource_names=true" := by
    simp [preprocess_gaql, hmarker, hdrafts]
  refine ⟨hres, ?_⟩
  rw [hres]
  exact py_endswith_append query (by decide)

/-- Witness for C4 at a concrete drafts-free query. -/
theorem c4_witness :
    preprocess_gaql "SELECT campaign.id FROM campaign" =
      "SELECT campaign.id FROM campaign PARAMETERS omit_unselected_resource_names=true" ∧
    py_endswith (preprocess_gaql "SELECT campaign.id FROM campaign")
      "PARAMETERS omit_unselected_resource_names=true" = true :=
  c4_preprocess_appends_parameters_clause
    "SELECT campaign.id FROM campaign" (by decide) (by decide)

lemma preprocess_gaql_no_op {query : String}
    (h : py_contains query "omit_unselected_resource_names" = true) :
    preprocess_gaql query = query := by
  simp [preprocess_gaql, h]

lemma py_contains_preprocess_gaql (query : String) :
    py_contains (preprocess_gaql query) "omit_unselected_resource_names" = true := by
  by_cases h : py_contains query "omit_unselected_resource_names" = true
  · rw [preprocess_gaql_no_op h]
    exact h
  · have h' : py_contains query "omit_unselected_resource_names" = false := by
      simpa using h
    by_cases hP : (py_contains query "PARAMETERS" &&
        py_contains query "include_drafts") = true
    · have hq : preprocess_gaql query =
          query ++ " omit_unselected_resource_names=true" := by
        simp [preprocess_gaql, h', hP]
      rw [hq]
      exact py_contains_append_right query (by decide)
    · have hq : preprocess_gaql query =
          query ++ " PARAMETERS omit_unselected_resource_names=true" := by
        simp [preprocess_gaql, h', hP]
      rw [hq]
      exact py_contains_append_right query (by decide)

/-- C5: a query already containing the directive marker is returned
unchanged, and consequently `preprocess_gaql` is idempotent. -/
theorem c5_preprocess_idempotent (query : String) :
    (py_contains query "omit_unselected_resource_names" = true →
      preprocess_gaql query = query) ∧
    preprocess_gaql (preprocess_gaql query) = preprocess_gaql query :=
  ⟨fun h => preprocess_gaql_no_op h,
   preprocess_gaql_no_op (py_contains_preprocess_gaql query)⟩

/-- Witness for C5 at a query that already carries the directive. -/
theorem c5_witness :
    preprocess_gaql
      "SELECT campaign.id FROM campaign PARAMETERS omit_unselected_resource_names=true" =
      "SELECT campaign.id FROM campaign PARAMETERS omit_unselected_resource_names=true" :=
  (c5_preprocess_idempotent
    "SELECT campaign.id FROM campaign PARAMETERS omit_unselected_resource_names=true").1
    (by decide)

/-- A Python value as it appears in a Google Ads API response row or in the
output of `format_value`.  `protoMessage` and `protoEnum` model instances of
`proto.Message` and `proto.Enum`; an enum whose symbolic name is unavailable
(reading `value.name` raises `AttributeError`) carries `none`.  The other
constructors model plain Python values. -/
inductive PyValue where
  | protoMessage (msgId : Nat)
  | protoEnum (enumName : Option String) (enumNumber : Int)
  | pyStr (s : String)
  | pyInt (n : Int)
  | pyBool (b : Bool)
  | pyDict (entries : List (String × PyValue))
  | pyNone
deriving Repr

/-- The body of the `try` block of `format_value` (`ads_mcp/tools/api.py`
lines 170-181).  `to_dict` models the external call `proto.Message.to_dict`,
which may raise; the enum branch models `value.name` with its
`except AttributeError` fallback to `int(value)`. -/
def format_value_body (to_dict : Nat → Except PyErr (List (String × PyValue)))
    (value : PyValue) : Except PyErr PyValue :=
  match value with
  | .protoMessage msgId =>
    match to_dict msgId with
    | .ok d => .ok (.pyDict d)
    | .error e => .error e
  | .protoEnum enumName enumNumber =>
    match enumName with
    | some n => .ok (.pyStr n)
    | none => .ok (.pyInt enumNumber)
  | v => .ok v

/-- `format_value` (lines 168-185): the `try` body wrapped in the catch-all
`except` that returns the raw value when formatting fails. -/
def format_value (to_dict : Nat → Except PyErr (List (String × PyValue)))
    (value : PyValue) : PyValue :=
  match format_value_body to_dict value with
  | .ok return_value => return_value
  | .error _ => value

def is_proto_message : PyValue → Bool
  | .protoMessage _ => true
  | _ => false

def is_proto_enum : PyValue → Bool
  | .protoEnum _ _ => true
  | _ => false

/-- A `to_dict` oracle that always raises, for concrete instantiations. -/
def to_dict_fail : Nat → Except PyErr (List (String × PyValue)) :=
  fun _ => .error ⟨"to_dict failure"⟩

/-- A `to_dict` oracle that always succeeds with an empty mapping. -/
def to_dict_empty : Nat → Except PyErr (List (String × PyValue)) :=
  fun _ => .ok []

/-- C6: an enum value whose symbolic name is available formats to that name
(not the numeric value); an enum whose name is unavailable formats to the
numeric value; any value that is neither a proto message nor an enum is
returned unchanged. -/
theorem c6_format_value_enum_name_and_passthrough
    (to_dict : Nat → Except PyErr (List (String × PyValue)))
    (n : String) (num : Int) (value : PyValue) :
    format_value to_dict (.protoEnum (some n) num) = .pyStr n ∧
    format_value to_dict (.protoEnum none num) = .pyInt num ∧
    (is_proto_message value = false → is_proto_enum value = false →
      format_value to_dict value = value) := by
  refine ⟨rfl, rfl, ?_⟩
  intro h1 h2
  cases value <;>
    simp_all [format_value, format_value_body, is_proto_message, is_proto_enum]

/-- Witness for C6: a plain string passes through `format_value` unchanged
even when the `to_dict` oracle would fail. -/
theorem c6_witness :
    format_value to_dict_fail (.pyStr "hello") = .pyStr "hello" :=
  (c6_format_value_enum_name_and_passthrough to_dict_fail "PAUSED" 3
    (.pyStr "hello")).2.2 rfl rfl

/-- C10: `format_value` is total by construction (it returns a `PyValue`,
never an exception), and whenever its `try` body raises internally the raw
input value is returned unchanged. -/
theorem c10_format_value_returns_raw_on_internal_failure
    (to_dict : Nat → Except PyErr (List (String × PyValue)))
    (value : PyValue) (e : PyErr)
    (h : format_value_body to_dict value = .error e) :
    format_value to_dict value = value := by
  simp [format_value, h]

/-- Witness for C10: a proto message whose `to_dict` raises is returned as
the raw value. -/
theorem c10_witness :
    format_value to_dict_fail (.protoMessage 7) = .protoMessage 7 :=
  c10_format_value_returns_raw_on_internal_failure to_dict_fail
    (.protoMessage 7) ⟨"to_dict failure"⟩ rfl

/-- One entry of `e.failure.errors` carried by a `GoogleAdsException`.
An attribute whose read raises `AttributeError` is modelled by `none`;
`trigger` is additionally guarded by `hasattr` and a truthiness test in the
source, so an empty-string trigger produces no line. -/
structure AdsSubError where
  message : String
  location : Option String
  error_code : Option String
  trigger : Option String
deriving Repr, DecidableEq

/-- The optional detail lines (location, error code, trigger) contributed by
one sub-error (`ads_mcp/tools/api.py` lines 269-281). -/
def sub_error_extra (error : AdsSubError) : List String :=
  (match error.location with
   | some loc => ["  Location: " ++ loc]
   | none => []) ++
  (match error.error_code with
   | some code => ["  Error Code: " ++ code]
   | none => []) ++
  (match error.trigger with
   | some t => if !(t == "") then ["  Trigger: " ++ t] else []
   | none => [])

/-- All lines contributed by one sub-error to `error_details`
(lines 267-281): the `Error:` line followed by the optional details. -/
def sub_error_details (error : AdsSubError) : List String :=
  ("Error: " ++ error.message) :: sub_error_extra error

/-- Python `sep.join(parts)`. -/
def py_join (sep : String) : List String → String
  | [] => ""
  | [part] => part
  | part :: rest => part ++ sep ++ py_join sep rest

/-- The `full_error` assembly of `execute_gaql`'s `except GoogleAdsException`
handler (lines 266-283); `failure_repr` models `str(e.failure.errors)`. -/
def build_full_error (errors : List AdsSubError) (failure_repr : String) : String :=
  let error_details := errors.flatMap sub_error_details
  if !error_details.isEmpty then py_join "\n" error_details else failure_repr

/-- One row of a search-stream batch.  `get_nested_attr` applied to the row
is an external SDK call; the association list records its outcome per
(transformed) field path, with missing paths raising `AttributeError`. -/
structure GoogleAdsRow where
  attrs : List (String × Except PyErr PyValue)

/-- `get_nested_attr(row, path)` from the Google Ads SDK, as observed
through the row's attribute oracle. -/
def get_nested_attr (row : GoogleAdsRow) (path : String) : Except PyErr PyValue :=
  match (row.attrs.find? (fun p => p.1 == path)).map (fun p => p.2) with
  | some r => r
  | none => .error ⟨"AttributeError"⟩

/-- One batch of a `search_stream` response: its field mask paths and rows. -/
structure SearchBatch where
  field_mask_paths : List String
  results : List GoogleAdsRow

/-- Structural worker for Python `s.replace(pat, rep)` (all non-overlapping
occurrences, left to right); `fuel` bounds the scan by the input length. -/
def py_replace_aux (fuel : Nat) (s pat rep : List Char) : List Char :=
  match fuel with
  | 0 => s
  | fuel + 1 =>
    match s with
    | [] => []
    | c :: rest =>
      if pat ≠ [] && pat.isPrefixOf (c :: rest) then
        rep ++ py_replace_aux fuel ((c :: rest).drop pat.length) pat rep
      else c :: py_replace_aux fuel rest pat rep

/-- Python `s.replace(pat, rep)`. -/
def py_replace (s pat rep : String) : String :=
  String.mk (py_replace_aux s.data.length s.data pat.data rep.data)

/-- `field_path.replace('.type', '.type_')` (line 241): the reserved-keyword
escaping applied before attribute resolution. -/
def python_field_path (field_path : String) : String :=
  py_replace field_path ".type" ".type_"

/-- The inner field loop of `execute_gaql` (lines 237-252) for one row:
builds `row_data` in field-mask order, storing each formatted value under
the original field path; the first resolution failure is re-raised. -/
def build_row_data (to_dict : Nat → Except PyErr (List (String × PyValue)))
    (row : GoogleAdsRow) : List String → Except PyErr (List (String × PyValue))
  | [] => .ok []
  | field_path :: rest =>
    match get_nested_attr row (python_field_path field_path) with
    | .error e => .error e
    | .ok raw_value =>
      match build_row_data to_dict row rest with
      | .error e => .error e
      | .ok tail => .ok ((field_path, format_value to_dict raw_value) :: tail)

/-- The row loop of `execute_gaql` (lines 233-253) over one batch. -/
def process_batch_results (to_dict : Nat → Except PyErr (List (String × PyValue)))
    (paths : List String) :
    List GoogleAdsRow → Except PyErr (List (List (String × PyValue)))
  | [] => .ok []
  | row :: rest =>
    match build_row_data to_dict row paths with
    | .error e => .error e
    | .ok row_data =>
      match process_batch_results to_dict paths rest with
      | .error e => .error e
      | .ok out => .ok (row_data :: out)

/-- The batch loop of `execute_gaql` (lines 231-253). -/
def process_batches (to_dict : Nat → Except PyErr (List (String × PyValue))) :
    List SearchBatch → Except PyErr (List (List (String × PyValue)))
  | [] => .ok []
  | batch :: rest =>
    match process_batch_results to_dict batch.field_mask_paths batch.results with
    | .error e => .error e
    | .ok out =>
      match process_batches to_dict rest with
      | .error e => .error e
      | .ok out2 => .ok (out ++ out2)

/-- How `execute_gaql` terminates abnormally: a re-raised per-field
resolution failure, or the `RuntimeError(full_error)` built from a
`GoogleAdsException`. -/
inductive ExecError where
  | raised (e : PyErr)
  | runtime_error (full_error : String)
deriving Repr, DecidableEq

/-- The outcome of the `search_stream` call: either a stream of batches, or
a `GoogleAdsException` carrying its sub-error list and the fallback
`str(e.failure.errors)`. -/
inductive QueryOutcome where
  | stream (batches : List SearchBatch)
  | ads_exception (errors : List AdsSubError) (failure_repr : String)

/-- The result-processing and error-handling core of `execute_gaql`
(lines 227-285), after authentication and the `search_stream` call whose
outcome is given. -/
def execute_gaql_rows (to_dict : Nat → Except PyErr (List (String × PyValue)))
    (outcome : QueryOutcome) : Except ExecError (List (List (String × PyValue))) :=
  match outcome with
  | .stream batches =>
    match process_batches to_dict batches with
    | .ok output => .ok output
    | .error e => .error (.raised e)
  | .ads_exception errors failure_repr =>
    .error (.runtime_error (build_full_error errors failure_repr))

lemma py_join_cons_of_ne (sep a : String) {l : List String} (h : l ≠ []) :
    py_join sep (a :: l) = a ++ sep ++ py_join sep l := by
  cases l with
  | nil => exact absurd rfl h
  | cons b t => rfl

lemma py_join_cons_decomp (sep a : String) (l : List String) :
    ∃ tail, py_join sep (a :: l) = a ++ tail := by
  cases l with
  | nil => exact ⟨"", (String.append_empty a).symm⟩
  | cons b t =>
    exact ⟨sep ++ py_join sep (b :: t), by
      rw [py_join_cons_of_ne sep a (by simp), String.append_assoc]⟩

lemma py_join_append_split (y : String) (l2 : List String) :
    ∀ (r : List String) (x : String),
      ∃ mid, py_join "\n" (x :: (r ++ y :: l2)) =
          x ++ mid ++ py_join "\n" (y :: l2) ∧
        py_endswith mid "\n" = true := by
  intro r
  induction r with
  | nil =>
    intro x
    refine ⟨"\n", ?_, by decide⟩
    simp only [List.nil_append]
    rfl
  | cons z r ih =>
    intro x
    obtain ⟨mid, hmid, hends⟩ := ih z
    refine ⟨"\n" ++ z ++ mid, ?_, py_endswith_append ("\n" ++ z) hends⟩
    have h1 : py_join "\n" (x :: ((z :: r) ++ y :: l2)) =
        x ++ "\n" ++ py_join "\n" (z :: (r ++ y :: l2)) := by
      simp only [List.cons_append]
      exact py_join_cons_of_ne "\n" x (by simp)
    rw [h1, hmid]
    simp [String.append_assoc]

/-- C7: on a `GoogleAdsException` with two sub-errors, `execute_gaql` raises
a single `RuntimeError` whose message starts with the first sub-error's
message line, followed (after a newline-terminated middle made of the first
sub-error's detail lines) by the second sub-error's message line — both
messages appear, newline-separated, in their original order. -/
theorem c7_failure_message_joins_sub_errors
    (to_dict : Nat → Except PyErr (List (String × PyValue)))
    (e1 e2 : AdsSubError) (failure_repr : String) :
    ∃ mid tail,
      execute_gaql_rows to_dict (.ads_exception [e1, e2] failure_repr) =
        .error (.runtime_error
          ("Error: " ++ e1.message ++ mid ++ ("Error: " ++ e2.message) ++ tail)) ∧
      py_endswith mid "\n" = true := by
  obtain ⟨tail, htail⟩ :=
    py_join_cons_decomp "\n" ("Error: " ++ e2.message) (sub_error_extra e2)
  obtain ⟨mid, hmid, hends⟩ :=
    py_join_append_split ("Error: " ++ e2.message) (sub_error_extra e2)
      (sub_error_extra e1) ("Error: " ++ e1.message)
  refine ⟨mid, tail, ?_, hends⟩
  have hfull : build_full_error [e1, e2] failure_repr =
      py_join "\n" (("Error: " ++ e1.message) ::
        (sub_error_extra e1 ++ ("Error: " ++ e2.message) :: sub_error_extra e2)) := by
    simp [build_full_error, sub_error_details]
  have hexec : execute_gaql_rows to_dict (.ads_exception [e1, e2] failure_repr) =
      .error (.runtime_error (build_full_error [e1, e2] failure_repr)) := rfl
  rw [hexec, hfull, hmid, htail]
  simp [String.append_assoc]

lemma build_row_data_error_of_path_failure
    (to_dict : Nat → Except PyErr (List (String × PyValue))) (row : GoogleAdsRow) :
    ∀ (paths : List String) (field_path : String), field_path ∈ paths →
      (∃ e, get_nested_attr row (python_field_path field_path) = .error e) →
      ∃ e, build_row_data to_dict row paths = .error e := by
  intro paths
  induction paths with
  | nil =>
    intro p hp _
    exact absurd hp (List.not_mem_nil p)
  | cons q rest ih =>
    intro p hp hfail
    cases hres : get_nested_attr row (python_field_path q) with
    | error e => exact ⟨e, by simp [build_row_data, hres]⟩
    | ok v =>
      rcases List.mem_cons.mp hp with heq | hmem
      · subst heq
        obtain ⟨e, he⟩ := hfail
        rw [he] at hres
        cases hres
      · obtain ⟨e2, he2⟩ := ih p hmem hfail
        exact ⟨e2, by simp [build_row_data, hres, he2]⟩

lemma process_batch_results_error_of_row_failure
    (to_dict : Nat → Except PyErr (List (String × PyValue))) (paths : List String) :
    ∀ (rows : List GoogleAdsRow) (row : GoogleAdsRow), row ∈ rows →
      (∃ e, build_row_data to_dict row paths = .error e) →
      ∃ e, process_batch_results to_dict paths rows = .error e := by
  intro rows
  induction rows with
  | nil =>
    intro row hrow _
    exact absurd hrow (List.not_mem_nil row)
  | cons first rest ih =>
    intro row hrow hfail
    cases hres : build_row_data to_dict first paths with
    | error e => exact ⟨e, by simp [process_batch_results, hres]⟩
    | ok v =>
      rcases List.mem_cons.mp hrow with heq | hmem
      · subst heq
        obtain ⟨e, he⟩ := hfail
        rw [he] at hres
        cases hres
      · obtain ⟨e2, he2⟩ := ih row hmem hfail
        exact ⟨e2, by simp [process_batch_results, hres, he2]⟩

lemma process_batches_error_of_batch_failure
    (to_dict : Nat → Except PyErr (List (String × PyValue))) :
    ∀ (batches : List SearchBatch) (batch : SearchBatch), batch ∈ batches →
      (∃ e, process_batch_results to_dict batch.field_mask_paths batch.results =
        .error e) →
      ∃ e, process_batches to_dict batches = .error e := by
  intro batches
  induction batches with
  | nil =>
    intro batch hb _
    exact absurd hb (List.not_mem_nil batch)
  | cons first rest ih =>
    intro batch hb hfail
    cases hres : process_batch_results to_dict first.field_mask_paths first.results with
    | error e => exact ⟨e, by simp [process_batches, hres]⟩
    | ok v =>
      rcases List.mem_cons.mp hb with heq | hmem
      · subst heq
        obtain ⟨e, he⟩ := hfail
        rw [he] at hres
        cases hres
      · obtain ⟨e2, he2⟩ := ih batch hmem hfail
        exact ⟨e2, by simp [process_batches, hres, he2]⟩

/-- C9: if resolving some field path of a batch's field mask against one of
that batch's rows fails, `execute_gaql` re-raises the failure and the whole
call aborts: the result is an error, not a (partial) list of rows. -/
theorem c9_field_resolution_failure_is_fatal
    (to_dict : Nat → Except PyErr (List (String × PyValue)))
    (batches : List SearchBatch) (batch : SearchBatch) (row : GoogleAdsRow)
    (field_path : String)
    (hb : batch ∈ batches) (hrow : row ∈ batch.results)
    (hp : field_path ∈ batch.field_mask_paths)
    (hfail : ∃ e, get_nested_attr row (python_field_path field_path) = .error e) :
    ∃ e, execute_gaql_rows to_dict (.stream batches) = .error (.raised e) := by
  have h1 := build_row_data_error_of_path_failure to_dict row
    batch.field_mask_paths field_path hp hfail
  have h2 := process_batch_results_error_of_row_failure to_dict
    batch.field_mask_paths batch.results row hrow h1
  obtain ⟨e, he⟩ := process_batches_error_of_batch_failure to_dict batches batch hb h2
  exact ⟨e, by simp [execute_gaql_rows, he]⟩

/-- A row with no resolvable attributes, for concrete instantiations. -/
def empty_row : GoogleAdsRow := ⟨[]⟩

/-- A batch requesting `campaign.id` from the single empty row. -/
def failing_batch : SearchBatch := ⟨["campaign.id"], [empty_row]⟩

/-- Witness for C9: a stream whose one row cannot resolve `campaign.id`
makes `execute_gaql` abort with a raised error. -/
theorem c9_witness :
    ∃ e, execute_gaql_rows to_dict_empty (.stream [failing_batch]) =
      .error (.raised e) :=
  c9_field_resolution_failure_is_fatal to_dict_empty [failing_batch]
    failing_batch empty_row "campaign.id"
    (List.mem_cons_self failing_batch [])
    (List.mem_cons_self empty_row [])
    (List.mem_cons_self "campaign.id" [])
    ⟨⟨"AttributeError"⟩, rfl⟩

/-- A cached access token, one value of `self.token_cache`
(`ads_mcp/oauth_client.py` lines 86-90). -/
structure CacheEntry where
  access_token : String
  expires_at : Int
  refresh_token_hash : String
deriving Repr, DecidableEq

/-- The fields of the parsed `google-ads.yaml` credentials file that
`_generate_access_token_from_refresh` reads; `none` models a missing key
and `some ""` an empty (falsy) value. -/
structure AdsConfig where
  client_id : Option String
  client_secret : Option String
deriving Repr, DecidableEq

/-- Status and JSON body of the OAuth provider's response to the
`requests.post` token exchange. -/
structure TokenResponse where
  status_code : Int
  access_token : Option String
  expires_in : Option Int
deriving Repr, DecidableEq

/-- The external world as seen by one call of
`_generate_access_token_from_refresh`: whether the credentials file exists,
the outcome of reading and YAML-parsing it, and the outcome of the token
exchange POST (`.error` models a raised exception, caught by the
function's catch-all `except`). -/
structure ExchangeEnv where
  credentials_file_exists : Bool
  read_credentials : Except PyErr AdsConfig
  post_token : Except PyErr TokenResponse

/-- Python dict lookup `token_cache[key]` / `key in token_cache`. -/
def cache_get (token_cache : List (String × CacheEntry)) (cache_key : String) :
    Option CacheEntry :=
  (token_cache.find? (fun p => p.1 == cache_key)).map (fun p => p.2)

/-- Python dict assignment `token_cache[key] = entry`. -/
def cache_set (token_cache : List (String × CacheEntry)) (cache_key : String)
    (entry : CacheEntry) : List (String × CacheEntry) :=
  (cache_key, entry) :: token_cache.filter (fun p => !(p.1 == cache_key))

/-- `_get_cache_key_for_refresh_token` (lines 31-34): the cache key is the
string `refresh_token_` followed by `abs(hash(refresh_token))`; `py_hash`
models Python's process-wide string hash. -/
def _get_cache_key_for_refresh_token (py_hash : String → Int)
    (refresh_token : String) : String :=
  "refresh_token_" ++ toString (py_hash refresh_token).natAbs

/-- The `try` block of `_generate_access_token_from_refresh` (lines 49-102)
with its catch-all `except` folded in: returns the optional access token,
the updated cache, and whether the `requests.post` exchange was reached. -/
def exchange_refresh_token (env : ExchangeEnv) (now : Int)
    (py_hash : String → Int) (token_cache : List (String × CacheEntry))
    (refresh_token : String) :
    Option String × List (String × CacheEntry) × Bool :=
  if !env.credentials_file_exists then (none, token_cache, false)
  else
    match env.read_credentials with
    | .error _ => (none, token_cache, false)
    | .ok ads_config =>
      if !(py_truthy ads_config.client_id && py_truthy ads_config.client_secret) then
        (none, token_cache, false)
      else
        match env.post_token with
        | .error _ => (none, token_cache, true)
        | .ok response =>
          if response.status_code == 200 then
            match response.access_token with
            | some access_token =>
              if !(access_token == "") then
                let expires_in := response.expires_in.getD 3600
                let cache_key := _get_cache_key_for_refresh_token py_hash refresh_token
                (some access_token,
                 cache_set token_cache cache_key
                   ⟨access_token, now + expires_in - 60, refresh_token.take 10⟩,
                 true)
              else (none, token_cache, true)
            | none => (none, token_cache, true)
          else (none, token_cache, true)

/-- `_generate_access_token_from_refresh` (lines 36-102): an unexpired
cached entry for the refresh token's key is returned as is (no exchange);
otherwise the token exchange runs. -/
def _generate_access_token_from_refresh (env : ExchangeEnv) (now : Int)
    (py_hash : String → Int) (token_cache : List (String × CacheEntry))
    (refresh_token : String) :
    Option String × List (String × CacheEntry) × Bool :=
  let cache_key := _get_cache_key_for_refresh_token py_hash refresh_token
  match cache_get token_cache cache_key with
  | some cached_data =>
    if cached_data.expires_at > now then
      (some cached_data.access_token, token_cache, false)
    else exchange_refresh_token env now py_hash token_cache refresh_token
  | none => exchange_refresh_token env now py_hash token_cache refresh_token

/-- Python dict lookup `headers.get(key)`. -/
def headers_get (headers : List (String × String)) (key : String) : Option String :=
  (headers.find? (fun p => p.1 == key)).map (fun p => p.2)

/-- `get_refresh_token_from_headers` (`ads_mcp/tools/api.py` lines 39-54):
`headers_result` models the outcome of `get_http_headers()` (`.error` when
it raises, swallowed by the bare `except`); an empty mapping is falsy and
skips the lookup entirely. -/
def get_refresh_token_from_headers
    (headers_result : Except PyErr (List (String × String))) : Option String :=
  match headers_result with
  | .error _ => none
  | .ok headers =>
    if !headers.isEmpty then
      py_or (headers_get headers "x-oauth-refresh-token")
        (headers_get headers "X-OAuth-Refresh-Token")
    else none

lemma cache_get_set_self (token_cache : List (String × CacheEntry))
    (cache_key : String) (entry : CacheEntry) :
    cache_get (cache_set token_cache cache_key entry) cache_key = some entry := by
  simp [cache_get, cache_set]

/-- C1: with no unexpired cache entry for the refresh token (the entry is
absent, or present but expired), a successful exchange returns the
provider's access token, reaches the network, and stores the token under
the refresh token's cache key; any later call with the same refresh token
before that entry's expiry returns the identical token with the cache
unchanged and without reaching the network (regardless of the environment
of the second call). -/
theorem c1_successful_exchange_populates_cache
    (env : ExchangeEnv) (now : Int) (py_hash : String → Int)
    (token_cache : List (String × CacheEntry)) (refresh_token : String)
    (ads_config : AdsConfig) (response : TokenResponse) (tok : String)
    (hnofresh : ∀ cached_data,
      cache_get token_cache
        (_get_cache_key_for_refresh_token py_hash refresh_token) =
        some cached_data →
      cached_data.expires_at ≤ now)
    (hfile : env.credentials_file_exists = true)
    (hread : env.read_credentials = .ok ads_config)
    (hid : py_truthy ads_config.client_id = true)
    (hsecret : py_truthy ads_config.client_secret = true)
    (hpost : env.post_token = .ok response)
    (hstatus : response.status_code = 200)
    (htok : response.access_token = some tok)
    (hne : tok ≠ "") :
    (_generate_access_token_from_refresh env now py_hash token_cache
      refresh_token).1 = some tok ∧
    (_generate_access_token_from_refresh env now py_hash token_cache
      refresh_token).2.2 = true ∧
    cache_get (_generate_access_token_from_refresh env now py_hash token_cache
        refresh_token).2.1
      (_get_cache_key_for_refresh_token py_hash refresh_token) =
      some ⟨tok, now + response.expires_in.getD 3600 - 60, refresh_token.take 10⟩ ∧
    ∀ (env2 : ExchangeEnv) (now2 : Int),
      now2 < now + response.expires_in.getD 3600 - 60 →
      _generate_access_token_from_refresh env2 now2 py_hash
        (_generate_access_token_from_refresh env now py_hash token_cache
          refresh_token).2.1 refresh_token =
        (some tok,
         (_generate_access_token_from_refresh env now py_hash token_cache
           refresh_token).2.1,
         false) := by
  have hexch : _generate_access_token_from_refresh env now py_hash token_cache
      refresh_token =
      exchange_refresh_token env now py_hash token_cache refresh_token := by
    unfold _generate_access_token_from_refresh
    cases hc : cache_get token_cache
        (_get_cache_key_for_refresh_token py_hash refresh_token) with
    | none => simp only [hc]
    | some cached_data =>
      simp only [hc]
      exact if_neg (not_lt.mpr (hnofresh cached_data hc))
  have hres : _generate_access_token_from_refresh env now py_hash token_cache
      refresh_token =
      (some tok,
       cache_set token_cache (_get_cache_key_for_refresh_token py_hash refresh_token)
         ⟨tok, now + response.expires_in.getD 3600 - 60, refresh_token.take 10⟩,
       true) := by
    rw [hexch]
    simp [exchange_refresh_token, hfile, hread, hid, hsecret, hpost, hstatus,
      htok, hne]
  rw [hres]
  refine ⟨rfl, rfl, cache_get_set_self _ _ _, ?_⟩
  intro env2 now2 hlt
  simp [_generate_access_token_from_refresh, cache_get_set_self, hlt]

/-- An environment in which the token exchange succeeds. -/
def env_ok : ExchangeEnv :=
  ⟨true, .ok ⟨some "client-id", some "client-secret"⟩,
   .ok ⟨200, some "fresh-access-token", some 3600⟩⟩

/-- An environment in which every external interaction fails. -/
def env_down : ExchangeEnv :=
  ⟨false, .error ⟨"io error"⟩, .error ⟨"network error"⟩⟩

/-- A deterministic stand-in for Python's process-wide string hash. -/
def hash0 : String → Int := fun s => (s.length : Int)

/-- A cache holding an already-expired entry for `"refresh-token-1"`
under `hash0`. -/
def stale_cache : List (String × CacheEntry) :=
  [(_get_cache_key_for_refresh_token hash0 "refresh-token-1",
    ⟨"stale-token", 900, "refresh-to"⟩)]

/-- Witness for C1: starting from a cache whose entry for the refresh token
expired at 900, the exchange at time 1000 succeeds and overwrites it, and a
second call at time 2000 (inside the new expiry window) returns the same
token from the cache even though the second call's environment is entirely
broken. -/
theorem c1_witness :
    (_generate_access_token_from_refresh env_ok 1000 hash0 stale_cache
      "refresh-token-1").1 = some "fresh-access-token" ∧
    _generate_access_token_from_refresh env_down 2000 hash0
      (_generate_access_token_from_refresh env_ok 1000 hash0 stale_cache
        "refresh-token-1").2.1 "refresh-token-1" =
      (some "fresh-access-token",
       (_generate_access_token_from_refresh env_ok 1000 hash0 stale_cache
         "refresh-token-1").2.1,
       false) := by
  have h := c1_successful_exchange_populates_cache env_ok 1000 hash0 stale_cache
    "refresh-token-1" ⟨some "client-id", some "client-secret"⟩
    ⟨200, some "fresh-access-token", some 3600⟩ "fresh-access-token"
    (fun cached_data hc => by
      have h2 : (⟨"stale-token", 900, "refresh-to"⟩ : CacheEntry) = cached_data :=
        Option.some.inj hc
      rw [← h2]
      decide)
    rfl rfl rfl rfl rfl rfl rfl (by decide)
  exact ⟨h.1, h.2.2.2 env_down 2000 (by decide)⟩

lemma exchange_reaches_network (env : ExchangeEnv) (now : Int)
    (py_hash : String → Int) (token_cache : List (String × CacheEntry))
    (refresh_token : String) (ads_config : AdsConfig)
    (hfile : env.credentials_file_exists = true)
    (hread : env.read_credentials = .ok ads_config)
    (hid : py_truthy ads_config.client_id = true)
    (hsecret : py_truthy ads_config.client_secret = true) :
    (exchange_refresh_token env now py_hash token_cache refresh_token).2.2 = true := by
  cases hpost : env.post_token with
  | error e =>
    simp [exchange_refresh_token, hfile, hread, hid, hsecret, hpost]
  | ok response =>
    rcases response with ⟨sc, atok, ei⟩
    rcases atok with _ | t
    · by_cases hs : sc = 200 <;>
        simp [exchange_refresh_token, hfile, hread, hid, hsecret, hpost, hs]
    · by_cases hs : sc = 200 <;> by_cases ht : t = "" <;>
        simp [exchange_refresh_token, hfile, hread, hid, hsecret, hpost, hs, ht]

/-- C2: a cache entry whose expiry is at or before the current time is not
returned: the call behaves exactly as the exchange path does, and whenever
the credentials are readable it reaches the provider's token endpoint. -/
theorem c2_expired_cache_entry_forces_exchange
    (env : ExchangeEnv) (now : Int) (py_hash : String → Int)
    (token_cache : List (String × CacheEntry)) (refresh_token : String)
    (cached_data : CacheEntry)
    (hhit : cache_get token_cache
      (_get_cache_key_for_refresh_token py_hash refresh_token) = some cached_data)
    (hexp : cached_data.expires_at ≤ now) :
    _generate_access_token_from_refresh env now py_hash token_cache refresh_token =
      exchange_refresh_token env now py_hash token_cache refresh_token ∧
    ∀ ads_config, env.credentials_file_exists = true →
      env.read_credentials = .ok ads_config →
      py_truthy ads_config.client_id = true →
      py_truthy ads_config.client_secret = true →
      (_generate_access_token_from_refresh env now py_hash token_cache
        refresh_token).2.2 = true := by
  have hmain : _generate_access_token_from_refresh env now py_hash token_cache
      refresh_token =
      exchange_refresh_token env now py_hash token_cache refresh_token := by
    unfold _generate_access_token_from_refresh
    simp only [hhit]
    exact if_neg (not_lt.mpr hexp)
  refine ⟨hmain, ?_⟩
  intro ads_config hfile hread hid hsecret
  rw [hmain]
  exact exchange_reaches_network env now py_hash token_cache refresh_token
    ads_config hfile hread hid hsecret

/-- Witness for C2: at time 1000 the entry that expired at 900 is ignored,
the call equals the exchange path and reaches the network. -/
theorem c2_witness :
    _generate_access_token_from_refresh env_ok 1000 hash0 stale_cache
      "refresh-token-1" =
      exchange_refresh_token env_ok 1000 hash0 stale_cache "refresh-token-1" ∧
    (_generate_access_token_from_refresh env_ok 1000 hash0 stale_cache
      "refresh-token-1").2.2 = true := by
  have h := c2_expired_cache_entry_forces_exchange env_ok 1000 hash0 stale_cache
    "refresh-token-1" ⟨"stale-token", 900, "refresh-to"⟩ rfl (by decide)
  exact ⟨h.1, h.2 ⟨some "client-id", some "client-secret"⟩ rfl rfl rfl rfl⟩

/-- The ways the token exchange can fail: missing credentials file, an
exception while reading or parsing it, missing or empty `client_id` or
`client_secret`, an exception from `requests.post`, a non-200 response,
or a missing or empty `access_token` field in the response body. -/
def ExchangeFailure (env : ExchangeEnv) : Prop :=
  env.credentials_file_exists = false ∨
  (∃ e, env.read_credentials = .error e) ∨
  (∃ ads_config, env.read_credentials = .ok ads_config ∧
    (py_truthy ads_config.client_id = false ∨
     py_truthy ads_config.client_secret = false)) ∨
  (∃ e, env.post_token = .error e) ∨
  (∃ response, env.post_token = .ok response ∧ response.status_code ≠ 200) ∨
  (∃ response, env.post_token = .ok response ∧
    py_truthy response.access_token = false)

lemma exchange_failure_returns_none (env : ExchangeEnv) (now : Int)
    (py_hash : String → Int) (token_cache : List (String × CacheEntry))
    (refresh_token : String) (hfail : ExchangeFailure env) :
    (exchange_refresh_token env now py_hash token_cache refresh_token).1 = none := by
  rcases hfail with h | ⟨e, h⟩ | ⟨cfg, hok, hbad⟩ | ⟨e, h⟩ | ⟨r, hok, hbad⟩ |
    ⟨r, hok, hbad⟩
  · simp [exchange_refresh_token, h]
  · by_cases hf : env.credentials_file_exists <;>
      simp [exchange_refresh_token, hf, h]
  · by_cases hf : env.credentials_file_exists
    · rcases hbad with hb | hb <;> simp [exchange_refresh_token, hf, hok, hb]
    · simp [exchange_refresh_token, hf]
  · by_cases hf : env.credentials_file_exists
    · cases hr : env.read_credentials with
      | error e2 => simp [exchange_refresh_token, hf, hr]
      | ok cfg =>
        by_cases hcred : (py_truthy cfg.client_id &&
            py_truthy cfg.client_secret) = true <;>
          simp [exchange_refresh_token, hf, hr, hcred, h]
    · simp [exchange_refresh_token, hf]
  · by_cases hf : env.credentials_file_exists
    · cases hr : env.read_credentials with
      | error e2 => simp [exchange_refresh_token, hf, hr]
      | ok cfg =>
        by_cases hcred : (py_truthy cfg.client_id &&
            py_truthy cfg.client_secret) = true <;>
          simp [exchange_refresh_token, hf, hr, hcred, hok, hbad]
    · simp [exchange_refresh_token, hf]
  · by_cases hf : env.credentials_file_exists
    · cases hr : env.read_credentials with
      | error e2 => simp [exchange_refresh_token, hf, hr]
      | ok cfg =>
        by_cases hcred : (py_truthy cfg.client_id &&
            py_truthy cfg.client_secret) = true
        · rcases r with ⟨sc, atok, ei⟩
          rcases atok with _ | t
          · by_cases hs : sc = 200 <;>
              simp [exchange_refresh_token, hf, hr, hcred, hok, hs]
          · have ht : t = "" := by simpa [py_truthy] using hbad
            by_cases hs : sc = 200 <;>
              simp [exchange_refresh_token, hf, hr, hcred, hok, hs, ht]
        · simp [exchange_refresh_token, hf, hr, hcred]
    · simp [exchange_refresh_token, hf]

/-- C8: when the refresh token has no fresh cache entry and the exchange
fails in any of the enumerated ways, `_generate_access_token_from_refresh`
returns `none`; by construction of the embedding (the catch-all `except`
is folded into the oracles) no exception reaches the caller. -/
theorem c8_exchange_failures_yield_none
    (env : ExchangeEnv) (now : Int) (py_hash : String → Int)
    (token_cache : List (String × CacheEntry)) (refresh_token : String)
    (hnofresh : ∀ cached_data,
      cache_get token_cache
        (_get_cache_key_for_refresh_token py_hash refresh_token) =
        some cached_data →
      cached_data.expires_at ≤ now)
    (hfail : ExchangeFailure env) :
    (_generate_access_token_from_refresh env now py_hash token_cache
      refresh_token).1 = none := by
  unfold _generate_access_token_from_refresh
  cases hc : cache_get token_cache
      (_get_cache_key_for_refresh_token py_hash refresh_token) with
  | none =>
    simp only [hc]
    exact exchange_failure_returns_none env now py_hash token_cache
      refresh_token hfail
  | some cached_data =>
    simp only [hc]
    rw [if_neg (not_lt.mpr (hnofresh cached_data hc))]
    exact exchange_failure_returns_none env now py_hash token_cache
      refresh_token hfail

/-- Witness for C8: with an empty cache and a missing credentials file the
call returns `none`. -/
theorem c8_witness :
    (_generate_access_token_from_refresh env_down 1000 hash0 []
      "refresh-token-1").1 = none :=
  c8_exchange_failures_yield_none env_down 1000 hash0 [] "refresh-token-1"
    (fun cached_data h => by simp [cache_get] at h)
    (Or.inl rfl)

/-- Counterexample to C3 as stated: a headers mapping that carries the
refresh token under the casing `X-Oauth-Refresh-Token` (which is neither of
the two spellings the code looks up) makes
`get_refresh_token_from_headers` return `none`, not the header's value —
matching is not case-insensitive. -/
theorem c3_counterexample :
    headers_get [("X-Oauth-Refresh-Token", "tok-123")]
      "X-Oauth-Refresh-Token" = some "tok-123" ∧
    get_refresh_token_from_headers
      (.ok [("X-Oauth-Refresh-Token", "tok-123")]) = none := by
  exact ⟨rfl, rfl⟩

/-- C3 (amended): `get_refresh_token_from_headers` returns the header value
only for the two spellings the code looks up — the all-lowercase name
`x-oauth-refresh-token` (tried first, skipped when its value is falsy) and
the exact name `X-OAuth-Refresh-Token` (used when the lowercase name is
absent); other casings are not matched. -/
theorem c3_header_lookup_two_spellings
    (headers : List (String × String)) (v : String) :
    (headers_get headers "x-oauth-refresh-token" = some v → v ≠ "" →
      get_refresh_token_from_headers (.ok headers) = some v) ∧
    (headers_get headers "x-oauth-refresh-token" = none →
      headers_get headers "X-OAuth-Refresh-Token" = some v →
      get_refresh_token_from_headers (.ok headers) = some v) := by
  cases headers with
  | nil =>
    constructor
    · intro h _
      simp [headers_get] at h
    · intro _ h
      simp [headers_get] at h
  | cons p rest =>
    constructor
    · intro hget hne
      simp [get_refresh_token_from_headers, py_or, py_truthy, hget, hne]
    · intro hnone hget
      simp [get_refresh_token_from_headers, py_or, py_truthy, hnone, hget]

/-- Witness for the amended C3: the lowercase header name is matched. -/
theorem c3_witness :
    get_refresh_token_from_headers
      (.ok [("x-oauth-refresh-token", "tok-abc")]) = some "tok-abc" :=
  (c3_header_lookup_two_spellings [("x-oauth-refresh-token", "tok-abc")]
    "tok-abc").1 rfl (by decide)

end AdsMcp
